import Mathlib

/-!
Verification of the `pickledROM` placeholder ROM entity
(`ravenframework/SupervisedLearning/pickledROM.py`).

The data model and every method body are translated directly from the
source file.  Collaborators that live outside this file (the
`SupervisedLearning` base class, the `InputData`/`InputTypes` schema
engine) are modelled from the specification where the claims need them;
each such definition carries a doc comment starting `Modelled from the
spec:`.
-/

/-- A runtime error surfaced through the framework's error-reporting
channel: an error-class name, the fixed message text, and the raising
instance's `printTag` label. -/
structure RavenError where
  errClass : String
  msg : String
  tag : String
deriving Repr, DecidableEq

/-- The `pickledROM` instance state: exactly the fields assigned in
`__init__` (beyond base-class construction). -/
structure pickledROM where
  printTag : String
  _dynamicHandling : Bool
  initOptionDict : List (String × String)
  features : List String
  target : String
deriving Repr, DecidableEq

/-- Modelled from the spec: `raiseAnError` comes from the base-class
message handler (not under the sources verified here); per the spec's
error-propagation section it surfaces a labeled runtime error carrying
the fixed message text and the instance's tag, recovered nowhere. -/
def pickledROM.raiseAnError (self : pickledROM) (etype : String) (emsg : String) : RavenError :=
  { errClass := etype, msg := emsg, tag := self.printTag }

/-- `pickledROM.__init__`: constructs the inert placeholder state.  The
Python constructor takes no configuration and cannot fail; base-class
construction is outside this file and sets none of the fields modelled
here. -/
def pickledROM.__init__ : pickledROM :=
  { printTag := "pickledROM"
    _dynamicHandling := false
    initOptionDict := []
    features := ["PlaceHolder"]
    target := "PlaceHolder" }

/-- `__confidenceLocal__`: body is `pass`, so it returns `None` and
leaves the instance untouched. -/
def pickledROM.__confidenceLocal__ {γ : Type} (self : pickledROM) (featureVals : List γ) :
    Except RavenError (Option ℚ) × pickledROM :=
  (Except.ok none, self)

/-- `__resetLocal__`: body is `pass`. -/
def pickledROM.__resetLocal__ (self : pickledROM) :
    Except RavenError Unit × pickledROM :=
  (Except.ok (), self)

/-- `__returnCurrentSettingLocal__`: body is `pass`, so it returns
`None` rather than a dictionary. -/
def pickledROM.__returnCurrentSettingLocal__ (self : pickledROM) :
    Except RavenError (Option (List (String × String))) × pickledROM :=
  (Except.ok none, self)

/-- `__returnInitialParametersLocal__`: builds and returns an empty
dictionary. -/
def pickledROM.__returnInitialParametersLocal__ (self : pickledROM) :
    Except RavenError (List (String × String)) × pickledROM :=
  let params : List (String × String) := []
  (Except.ok params, self)

/-- The exact message text passed to `raiseAnError` by both
`__evaluateLocal__` and `__trainLocal__` (note the two spaces after
the exclamation mark, as written in the source). -/
def notLoadedMsg : String :=
  "PickledROM has not been loaded from file yet!  An IO step is required to perform this action."

/-- `__evaluateLocal__`: unconditionally raises the not-loaded
runtime error; the argument is never inspected and no value is
returned. -/
def pickledROM.__evaluateLocal__ {γ : Type} (self : pickledROM) (featureVals : List γ) :
    Except RavenError (List (String × ℚ)) × pickledROM :=
  (Except.error (self.raiseAnError "RuntimeError" notLoadedMsg), self)

/-- `__trainLocal__`: unconditionally raises the not-loaded runtime
error; neither argument is inspected. -/
def pickledROM.__trainLocal__ {γ δ : Type} (self : pickledROM)
    (featureVals : List γ) (targetVals : List δ) :
    Except RavenError Unit × pickledROM :=
  (Except.error (self.raiseAnError "RuntimeError" notLoadedMsg), self)

/-- Projects the error class and message out of a fallible result, so
results of differently typed operations can be compared. -/
def errInfo {α : Type} : Except RavenError α → Option (String × String)
  | Except.error e => some (e.errClass, e.msg)
  | Except.ok _ => none

/-- The one-space message text quoted by the claim under examination;
it differs from `notLoadedMsg` as written in the source. -/
def claimedOneSpaceMsg : String :=
  "PickledROM has not been loaded from file yet! An IO step is required to perform this action."

/-- Content types declarable for a configuration node, mirroring the
`InputTypes` classes the source uses (`IntegerType`, `FloatType`,
`StringType`, `StringListType`, and enumerations built by
`makeEnumType`). -/
inductive ContentType where
  | integer : ContentType
  | float : ContentType
  | string : ContentType
  | stringList : ContentType
  | enum (allowed : List String) : ContentType
deriving Repr, DecidableEq

/-- A declared attribute of a schema node: its name, content type, and
whether `addParam` marked it required (the source's `required` keyword
argument, `False` when omitted). -/
structure ParamAttr where
  name : String
  atype : ContentType
  required : Bool
deriving Repr, DecidableEq

/-- A schema node as built by `InputData.parameterInputFactory` and
grown by `addSub`/`addParam`: node name, content type, declared
attributes, declared sub-nodes, and the `default` keyword argument as
written in the source (`"None"` or the `"no-default"` sentinel). -/
inductive ParamSpec where
  | mk (name : String) (contentType : ContentType) (attrs : List ParamAttr)
      (subs : List ParamSpec) (dflt : String) : ParamSpec

/-- Name of a schema node. -/
def ParamSpec.name : ParamSpec → String
  | .mk n _ _ _ _ => n

/-- Content type of a schema node. -/
def ParamSpec.contentType : ParamSpec → ContentType
  | .mk _ c _ _ _ => c

/-- Declared attributes of a schema node. -/
def ParamSpec.attrs : ParamSpec → List ParamAttr
  | .mk _ _ a _ _ => a

/-- Declared sub-nodes of a schema node. -/
def ParamSpec.subs : ParamSpec → List ParamSpec
  | .mk _ _ _ s _ => s

/-- The `default` argument the node was declared with. -/
def ParamSpec.dflt : ParamSpec → String
  | .mk _ _ _ _ d => d

/-- `InputData.parameterInputFactory name contentType dflt`: a fresh
schema node with no attributes and no sub-nodes (the `descr` keyword
argument is documentation only and is not modelled). -/
def parameterInputFactory (name : String) (contentType : ContentType) (dflt : String) : ParamSpec :=
  ParamSpec.mk name contentType [] [] dflt

/-- `spec.addSub(sub)`: appends a declared sub-node. -/
def ParamSpec.addSub : ParamSpec → ParamSpec → ParamSpec
  | .mk n c a s d, sub => .mk n c a (s ++ [sub]) d

/-- `spec.addParam(name, type, required)`: appends a declared
attribute. -/
def ParamSpec.addParam : ParamSpec → String → ContentType → Bool → ParamSpec
  | .mk n c a s d, an, at_, req => .mk n c (a ++ [⟨an, at_, req⟩]) s d

/-- `InputTypes.makeEnumType(name, xmlName, values)`: an enumerated
content type restricted to the listed values. -/
def makeEnumType (name xmlName : String) (values : List String) : ContentType :=
  ContentType.enum values

/-- Modelled from the spec: the base schema produced by the parent
abstraction's `getInputSpecification` (the `SupervisedLearning` base
class is not among the sources verified here).  Its own contents are
external collaborator surface; it is modelled as a bare container node
with no declared sub-nodes or attributes, so the facts proved below
concern only the nodes this component adds. -/
def SupervisedLearning.getInputSpecification : ParamSpec :=
  ParamSpec.mk "ROM" ContentType.string [] [] "no-default"

/-- `pickledROM.getInputSpecification`: extends the base schema with
`seed`, `Multicycle` (containing `cycles` and `growth`),
`clusterEvalMode`, and `maxCycles`, exactly as the source builds them
(descriptions omitted; they carry no validation semantics). -/
def pickledROM.getInputSpecification : ParamSpec :=
  let specs := SupervisedLearning.getInputSpecification
  let specs := specs.addSub (parameterInputFactory "seed" ContentType.integer "None")
  let multicycle := parameterInputFactory "Multicycle" ContentType.string "None"
  let multicycle := multicycle.addSub
    (parameterInputFactory "cycles" ContentType.integer "no-default")
  let growth := parameterInputFactory "growth" ContentType.float "None"
  let growth := growth.addParam "targets" ContentType.stringList true
  let growth := growth.addParam "start_index" ContentType.integer false
  let growth := growth.addParam "end_index" ContentType.integer false
  let growthEnumType := makeEnumType "growth" "armaGrowthType" ["exponential", "linear"]
  let growth := growth.addParam "mode" growthEnumType true
  let multicycle := multicycle.addSub growth
  let specs := specs.addSub multicycle
  let clusterEvalModeEnum :=
    makeEnumType "clusterEvalModeEnum" "clusterEvalModeType" ["clustered", "truncated", "full"]
  let specs := specs.addSub (parameterInputFactory "clusterEvalMode" clusterEvalModeEnum "None")
  let specs := specs.addSub (parameterInputFactory "maxCycles" ContentType.integer "None")
  specs

/-- A concrete value appearing in a configuration document: an integer
literal, a decimal literal written `mantissa * 10 ^ exp` with a
negative exponent, a plain string, or a comma-separated string list. -/
inductive CVal where
  | intV (n : Int) : CVal
  | decV (mantissa : Int) (exp : Int) : CVal
  | strV (s : String) : CVal
  | strListV (l : List String) : CVal
deriving Repr, DecidableEq

/-- Modelled from the spec: whether a configuration value satisfies a
declared content type (the parsing done by the `InputTypes` classes,
which are not among the sources verified here).  An integer literal is
a valid float; an enumeration admits exactly its listed strings. -/
def checkContent : ContentType → CVal → Bool
  | ContentType.integer, CVal.intV _ => true
  | ContentType.float, CVal.intV _ => true
  | ContentType.float, CVal.decV _ _ => true
  | ContentType.string, CVal.strV _ => true
  | ContentType.stringList, CVal.strListV _ => true
  | ContentType.enum allowed, CVal.strV s => allowed.contains s
  | _, _ => false

/-- A node of a concrete configuration document: tag name, attribute
assignments, text content, and child nodes. -/
inductive ConfigNode where
  | mk (name : String) (attrs : List (String × CVal)) (content : CVal)
      (subs : List ConfigNode) : ConfigNode

/-- Tag name of a configuration node. -/
def ConfigNode.name : ConfigNode → String
  | .mk n _ _ _ => n

/-- Modelled from the spec: acceptance of a configuration node by a
declared schema node (the validation walk done by
`InputData.ParameterInput.parseNode`, not among the sources verified
here).  Per the spec's schema table: the names must match, the content
must satisfy the declared content type, every attribute declared
required must be present, every present attribute must be declared and
type-correct, a declared sub-node with no implicit default
(`"no-default"`) is required whenever the parent is present, and every
child must validate against some declared sub-node. -/
def validateNode : ParamSpec → ConfigNode → Bool
  | spec, ConfigNode.mk nm attrs content subs =>
    (spec.name == nm) &&
    checkContent spec.contentType content &&
    spec.attrs.all (fun d => !d.required || attrs.any (fun a => a.fst == d.name)) &&
    attrs.all (fun a => spec.attrs.any (fun d => d.name == a.fst && checkContent d.atype a.snd)) &&
    spec.subs.all (fun s => !(s.dflt == "no-default") || subs.any (fun c => c.name == s.name)) &&
    subs.attach.all (fun c => spec.subs.any (fun s => validateNode s c.val))
termination_by _ node => sizeOf node
decreasing_by
  simp_wf
  have h := List.sizeOf_lt_of_mem c.property
  omega

/-- Looks up a declared sub-node of a schema node by name. -/
def findSub (p : ParamSpec) (n : String) : Option ParamSpec :=
  p.subs.find? (fun s => s.name == n)

/-- Claim C1, counterexample: on a freshly constructed instance,
`__evaluateLocal__` raises a `RuntimeError` whose message is the
two-space text of the source, which is not the one-space message the
claim quotes. -/
theorem evaluateLocal_msg_has_two_spaces :
    errInfo (pickledROM.__init__.__evaluateLocal__ ([] : List Nat)).fst
      = some ("RuntimeError", notLoadedMsg) ∧
    notLoadedMsg ≠ claimedOneSpaceMsg := by
  exact ⟨rfl, by decide⟩

/-- Claim C1 (amended): for every freshly constructed instance and
every `featureVals` input, `__evaluateLocal__` fails with a
`RuntimeError` carrying the exact source message (two spaces after the
exclamation mark) and never returns a value. -/
theorem evaluateLocal_not_loaded_error {γ : Type} (featureVals : List γ) :
    (pickledROM.__init__.__evaluateLocal__ featureVals).fst
      = Except.error ⟨"RuntimeError",
          "PickledROM has not been loaded from file yet!  An IO step is required to perform this action.",
          "pickledROM"⟩ :=
  rfl

/-- Claim C2: on a freshly constructed instance, `__trainLocal__`
with non-empty feature and target data fails with a `RuntimeError`
carrying the exact two-space message, and its error class and message
are identical to those raised by `__evaluateLocal__`. -/
theorem trainLocal_not_loaded_error {γ δ : Type} (featureVals : List γ) (targetVals : List δ)
    (hf : featureVals ≠ []) (ht : targetVals ≠ []) :
    (pickledROM.__init__.__trainLocal__ featureVals targetVals).fst
      = Except.error ⟨"RuntimeError",
          "PickledROM has not been loaded from file yet!  An IO step is required to perform this action.",
          "pickledROM"⟩ ∧
    errInfo (pickledROM.__init__.__trainLocal__ featureVals targetVals).fst
      = errInfo (pickledROM.__init__.__evaluateLocal__ featureVals).fst :=
  ⟨rfl, rfl⟩

/-- Claim C2, witness at concrete non-empty inputs. -/
theorem trainLocal_not_loaded_error_witness :
    ([(0 : Nat)] : List Nat) ≠ [] ∧
    ((pickledROM.__init__.__trainLocal__ [(0 : Nat)] [(1 : Nat)]).fst
      = Except.error ⟨"RuntimeError",
          "PickledROM has not been loaded from file yet!  An IO step is required to perform this action.",
          "pickledROM"⟩ ∧
     errInfo (pickledROM.__init__.__trainLocal__ [(0 : Nat)] [(1 : Nat)]).fst
      = errInfo (pickledROM.__init__.__evaluateLocal__ [(0 : Nat)]).fst) :=
  ⟨by decide, trainLocal_not_loaded_error [(0 : Nat)] [(1 : Nat)] (by decide) (by decide)⟩

/-- Claim C3: a failing `__trainLocal__` or `__evaluateLocal__` call
leaves the whole instance, and in particular each of `printTag`,
`_dynamicHandling`, `initOptionDict`, `features` and `target`,
unchanged. -/
theorem train_evaluate_atomic_on_error {γ δ : Type} (s : pickledROM)
    (featureVals : List γ) (targetVals : List δ) :
    (s.__trainLocal__ featureVals targetVals).snd = s ∧
    (s.__evaluateLocal__ featureVals).snd = s ∧
    (s.__trainLocal__ featureVals targetVals).snd.printTag = s.printTag ∧
    (s.__trainLocal__ featureVals targetVals).snd._dynamicHandling = s._dynamicHandling ∧
    (s.__trainLocal__ featureVals targetVals).snd.initOptionDict = s.initOptionDict ∧
    (s.__trainLocal__ featureVals targetVals).snd.features = s.features ∧
    (s.__trainLocal__ featureVals targetVals).snd.target = s.target ∧
    (s.__evaluateLocal__ featureVals).snd.printTag = s.printTag ∧
    (s.__evaluateLocal__ featureVals).snd._dynamicHandling = s._dynamicHandling ∧
    (s.__evaluateLocal__ featureVals).snd.initOptionDict = s.initOptionDict ∧
    (s.__evaluateLocal__ featureVals).snd.features = s.features ∧
    (s.__evaluateLocal__ featureVals).snd.target = s.target :=
  ⟨rfl, rfl, rfl, rfl, rfl, rfl, rfl, rfl, rfl, rfl, rfl, rfl⟩

/-- Claim C4: on a freshly constructed instance,
`__returnInitialParametersLocal__` returns the empty mapping, raises
nothing, and leaves the instance unchanged. -/
theorem returnInitialParametersLocal_empty :
    pickledROM.__init__.__returnInitialParametersLocal__
      = (Except.ok [], pickledROM.__init__) :=
  rfl

/-- Claim C5: on a freshly constructed instance, `__resetLocal__`,
`__confidenceLocal__` (for any `featureVals`) and
`__returnCurrentSettingLocal__` do not raise, return no meaningful
value (`None` or nothing), and leave the instance unchanged. -/
theorem noop_methods_no_raise_no_state_change {γ : Type} (featureVals : List γ) :
    pickledROM.__init__.__resetLocal__ = (Except.ok (), pickledROM.__init__) ∧
    pickledROM.__init__.__confidenceLocal__ featureVals
      = (Except.ok none, pickledROM.__init__) ∧
    pickledROM.__init__.__returnCurrentSettingLocal__
      = (Except.ok none, pickledROM.__init__) :=
  ⟨rfl, rfl, rfl⟩

/-- Claim C6: construction (a total function, so it always succeeds)
establishes exactly the inert placeholder state: empty
`initOptionDict`, the fixed placeholder `features` list and `target`
value, `_dynamicHandling` false, and the diagnostic tag. -/
theorem init_establishes_placeholder_state :
    pickledROM.__init__.initOptionDict = [] ∧
    pickledROM.__init__.features = ["PlaceHolder"] ∧
    pickledROM.__init__.target = "PlaceHolder" ∧
    pickledROM.__init__._dynamicHandling = false ∧
    pickledROM.__init__.printTag = "pickledROM" :=
  ⟨rfl, rfl, rfl, rfl, rfl⟩

/-- Claim C7: the schema declares an optional top-level `Multicycle`
node whose `cycles` sub-node is an integer with no implicit default
and whose `growth` sub-node is optional (zero-or-more); a `Multicycle`
configuration node with `cycles` absent is rejected, while one with
`cycles` present validates, with or without a `growth` child. -/
theorem multicycle_schema_requires_cycles :
    (findSub pickledROM.getInputSpecification "Multicycle").map ParamSpec.dflt
      = some "None" ∧
    (((findSub pickledROM.getInputSpecification "Multicycle").bind
        (fun m => findSub m "cycles")).map
      (fun c => (c.contentType, c.dflt)))
      = some (ContentType.integer, "no-default") ∧
    (((findSub pickledROM.getInputSpecification "Multicycle").bind
        (fun m => findSub m "growth")).map ParamSpec.dflt)
      = some "None" ∧
    ((findSub pickledROM.getInputSpecification "Multicycle").map
      (fun m => validateNode m (ConfigNode.mk "Multicycle" [] (CVal.strV "") [])))
      = some false ∧
    ((findSub pickledROM.getInputSpecification "Multicycle").map
      (fun m => validateNode m (ConfigNode.mk "Multicycle" [] (CVal.strV "")
        [ConfigNode.mk "cycles" [] (CVal.intV 5) []])))
      = some true ∧
    ((findSub pickledROM.getInputSpecification "Multicycle").map
      (fun m => validateNode m (ConfigNode.mk "Multicycle" [] (CVal.strV "")
        [ConfigNode.mk "cycles" [] (CVal.intV 5) [],
         ConfigNode.mk "growth"
           [("targets", CVal.strListV ["T1"]), ("mode", CVal.strV "linear")]
           (CVal.intV 50) []])))
      = some true := by
  simp [validateNode, findSub, pickledROM.getInputSpecification,
    SupervisedLearning.getInputSpecification, parameterInputFactory, ParamSpec.addSub,
    ParamSpec.addParam, makeEnumType, checkContent, ParamSpec.name, ParamSpec.subs,
    ParamSpec.attrs, ParamSpec.contentType, ParamSpec.dflt, ConfigNode.name]

/-- Claim C8: the `growth` node under `Multicycle` has float content
and exactly the declared attributes — required string-list `targets`,
optional integers `start_index` and `end_index`, and required `mode`
restricted to {exponential, linear}; it accepts a node with
`targets=["T1"]`, `mode="linear"` and content 50, and rejects one
missing `mode`. -/
theorem growth_schema_attrs_and_validation :
    (((findSub pickledROM.getInputSpecification "Multicycle").bind
        (fun m => findSub m "growth")).map
      (fun g => (g.contentType, g.attrs)))
      = some (ContentType.float,
          [⟨"targets", ContentType.stringList, true⟩,
           ⟨"start_index", ContentType.integer, false⟩,
           ⟨"end_index", ContentType.integer, false⟩,
           ⟨"mode", ContentType.enum ["exponential", "linear"], true⟩]) ∧
    (((findSub pickledROM.getInputSpecification "Multicycle").bind
        (fun m => findSub m "growth")).map
      (fun g => validateNode g (ConfigNode.mk "growth"
        [("targets", CVal.strListV ["T1"]), ("mode", CVal.strV "linear")]
        (CVal.intV 50) [])))
      = some true ∧
    (((findSub pickledROM.getInputSpecification "Multicycle").bind
        (fun m => findSub m "growth")).map
      (fun g => validateNode g (ConfigNode.mk "growth"
        [("targets", CVal.strListV ["T1"])]
        (CVal.intV 50) [])))
      = some false := by
  simp [validateNode, findSub, pickledROM.getInputSpecification,
    SupervisedLearning.getInputSpecification, parameterInputFactory, ParamSpec.addSub,
    ParamSpec.addParam, makeEnumType, checkContent, ParamSpec.name, ParamSpec.subs,
    ParamSpec.attrs, ParamSpec.contentType, ParamSpec.dflt, ConfigNode.name]

/-- Claim C9: the schema declares an optional top-level
`clusterEvalMode` node restricted to {clustered, truncated, full},
accepting "truncated" and rejecting "invalid-mode", and an optional
top-level integer `maxCycles` node with no default. -/
theorem clusterEvalMode_maxCycles_schema :
    ((findSub pickledROM.getInputSpecification "clusterEvalMode").map
      (fun c => (c.contentType, c.dflt)))
      = some (ContentType.enum ["clustered", "truncated", "full"], "None") ∧
    ((findSub pickledROM.getInputSpecification "clusterEvalMode").map
      (fun c => validateNode c (ConfigNode.mk "clusterEvalMode" [] (CVal.strV "truncated") [])))
      = some true ∧
    ((findSub pickledROM.getInputSpecification "clusterEvalMode").map
      (fun c => validateNode c (ConfigNode.mk "clusterEvalMode" [] (CVal.strV "invalid-mode") [])))
      = some false ∧
    ((findSub pickledROM.getInputSpecification "maxCycles").map
      (fun m => (m.contentType, m.dflt)))
      = some (ContentType.integer, "None") := by
  simp [validateNode, findSub, pickledROM.getInputSpecification,
    SupervisedLearning.getInputSpecification, parameterInputFactory, ParamSpec.addSub,
    ParamSpec.addParam, makeEnumType, checkContent, ParamSpec.name, ParamSpec.subs,
    ParamSpec.attrs, ParamSpec.contentType, ParamSpec.dflt, ConfigNode.name]

/-- Claim C10: `__trainLocal__` and `__evaluateLocal__` ignore their
arguments entirely, raising the not-loaded `RuntimeError` for every
instance and every input, empty lists included. -/
theorem train_evaluate_ignore_arguments {γ δ : Type} (s : pickledROM)
    (featureVals : List γ) (targetVals : List δ) :
    errInfo (s.__trainLocal__ featureVals targetVals).fst
      = some ("RuntimeError", notLoadedMsg) ∧
    errInfo (s.__evaluateLocal__ featureVals).fst
      = some ("RuntimeError", notLoadedMsg) :=
  ⟨rfl, rfl⟩
